import Mathlib

/-!
Verification of the edge-llm fine-tuning pipeline scripts.

This file shallowly embeds the control flow and data transformations of
`run_pipeline.py`, `generate_training_data.py` and `export_and_test_onnx.py`
and proves properties of the pipeline orchestrator, the FunctionGemma
encoder, the dataset split and the ONNX export and quantization helpers.
External operations (subprocess runs, library calls, the filesystem) are
abstracted as explicit environment parameters recording their outcomes.
-/

namespace EdgeLLM

/-! ### Pipeline orchestrator (`run_pipeline.py`, `main`) -/

/-- The skip-relevant CLI flags of `run_pipeline.py`. -/
structure PipelineArgs where
  skip_data : Bool
  skip_training : Bool
  skip_tests : Bool
  skip_onnx : Bool
  skip_mlc : Bool

/-- The ordered stage list built in `main` (lines 298-306): each entry is the
stage name paired with its skip predicate, exactly as in the source. -/
def pipelineSteps (a : PipelineArgs) : List (String × Bool) :=
  [("Generate Data", a.skip_data),
   ("Train Adapters", a.skip_training),
   ("Test Adapters", a.skip_tests || a.skip_training),
   ("Fuse Model", a.skip_training),
   ("Test Fused", a.skip_tests || a.skip_training),
   ("Export ONNX", a.skip_onnx),
   ("Export MLC", a.skip_mlc)]

/-- The skip flag of each stage, by position. -/
def skipFlags (a : PipelineArgs) : List Bool :=
  (pipelineSteps a).map Prod.snd

/-- The orchestrator loop of `main` (lines 308-315), starting at absolute
stage index `i`.  `outcome k` is the verdict of stage `k`'s step function
(`step_fn(args)` truthiness).  Returns the process exit code together with
the list of absolute indices of the stages that were actually invoked. -/
def runLoop (outcome : Nat → Bool) : Nat → List Bool → Nat × List Nat
  | _, [] => (0, [])
  | i, skip :: rest =>
    if skip then runLoop outcome (i + 1) rest
    else if outcome i then
      let r := runLoop outcome (i + 1) rest
      (r.1, i :: r.2)
    else (1, [i])

/-- The whole run of `main`: exit code and invoked stage indices. -/
def runPipeline (a : PipelineArgs) (outcome : Nat → Bool) : Nat × List Nat :=
  runLoop outcome 0 (skipFlags a)

/-! ### FunctionGemma encoder (`generate_training_data.py`) -/

/-- Python `str.join(sep, l)`: elements of `l` interleaved with `sep`. -/
def joinSep (sep : String) : List String → String
  | [] => ""
  | [x] => x
  | x :: y :: ys => x ++ sep ++ joinSep sep (y :: ys)

/-- A JSON value, as handled by `json.dumps` / f-string interpolation in
`format_function_call`.  Numbers are restricted to integers (no claim
involves floats). -/
inductive JsonValue where
  | str (s : String)
  | int (n : Int)
  | bool (b : Bool)
  | null
  | obj (fields : List (String × JsonValue))
  | arr (items : List JsonValue)

/-- Lower-case hexadecimal digit. -/
def hexDigit (n : Nat) : Char :=
  if n < 10 then Char.ofNat (48 + n) else Char.ofNat (97 + (n - 10))

/-- Four-digit lower-case hexadecimal rendering, as in JSON `\uXXXX`. -/
def hex4 (n : Nat) : String :=
  String.mk [hexDigit (n / 4096 % 16), hexDigit (n / 256 % 16),
             hexDigit (n / 16 % 16), hexDigit (n % 16)]

/-- Escaping of one character inside a JSON string literal, following
`json.dumps` defaults (`ensure_ascii=True`, surrogate pairs above U+FFFF). -/
def jsonEscapeChar (c : Char) : String :=
  if c = '"' then "\\\""
  else if c = '\\' then "\\\\"
  else if c = '\n' then "\\n"
  else if c = '\t' then "\\t"
  else if c = '\r' then "\\r"
  else if c = '\x08' then "\\b"
  else if c = '\x0c' then "\\f"
  else if c.toNat < 32 || c.toNat > 126 then
    if c.toNat ≤ 65535 then "\\u" ++ hex4 c.toNat
    else
      let v := c.toNat - 65536
      "\\u" ++ hex4 (55296 + v / 1024) ++ "\\u" ++ hex4 (56320 + v % 1024)
  else String.singleton c

/-- A JSON string literal as rendered by `json.dumps`. -/
def pyJsonString (s : String) : String :=
  "\"" ++ String.join (s.data.map jsonEscapeChar) ++ "\""

mutual

/-- Model of `json.dumps` with default separators (`", "` between items, `": "`
after keys), as used by `escape_value` in `format_function_call`. -/
def pyJsonDumps : JsonValue → String
  | .str s => pyJsonString s
  | .int n => toString n
  | .bool b => cond b "true" "false"
  | .null => "null"
  | .obj fields => "\x7b" ++ joinSep ", " (pyJsonDumpsFields fields) ++ "\x7d"
  | .arr items => "[" ++ joinSep ", " (pyJsonDumpsItems items) ++ "]"

/-- Rendered `"key": value` members of a JSON object. -/
def pyJsonDumpsFields : List (String × JsonValue) → List String
  | [] => []
  | (k, v) :: rest => (pyJsonString k ++ ": " ++ pyJsonDumps v) :: pyJsonDumpsFields rest

/-- Rendered items of a JSON array. -/
def pyJsonDumpsItems : List JsonValue → List String
  | [] => []
  | v :: rest => pyJsonDumps v :: pyJsonDumpsItems rest

end

/-- Python `str(v)` for the scalar values that reach it in `escape_value`. -/
def pyStr : JsonValue → String
  | .str s => s
  | .int n => toString n
  | .bool b => cond b "True" "False"
  | .null => "None"
  | .obj fields => pyJsonDumps (.obj fields)
  | .arr items => pyJsonDumps (.arr items)

/-- Embedding of `escape_value` inside `format_function_call` (lines 86-89): mappings and
sequences go through `json.dumps`, everything else through `str`. -/
def escape_value : JsonValue → String
  | .obj fields => pyJsonDumps (.obj fields)
  | .arr items => pyJsonDumps (.arr items)
  | v => pyStr v

/-- Embedding of `format_function_call` (lines 84-92): renders one tool call in the
FunctionGemma grammar. -/
def format_function_call (name : String) (args : List (String × JsonValue)) : String :=
  let args_str := joinSep "," (args.map fun kv =>
    kv.1 ++ ":<escape>" ++ escape_value kv.2 ++ "<escape>")
  "<start_function_call>call:" ++ name ++ "\x7b" ++ args_str ++ "\x7d<end_function_call>"

/-- One `properties` entry of a tool schema; `Option` marks keys read with
`dict.get` defaults in the source. -/
structure PropJson where
  type? : Option String
  description? : Option String
  enum? : Option (List String)
  deriving DecidableEq

/-- The `parameters` object of a tool schema. -/
structure ParamsJson where
  properties? : Option (List (String × PropJson))
  required? : Option (List String)
  deriving DecidableEq

/-- A tool definition as loaded from JSON.  `name` and `description` are
read with hard indexing in the source (`tool["name"]`), so a missing key
raises; they are `Option` here and `format_tool_declaration` errors on
`none`. -/
structure ToolJson where
  name? : Option String
  description? : Option String
  parameters? : Option ParamsJson
  deriving DecidableEq

/-- Embedding of `format_tool_declaration` (lines 58-81).  `Except` models the
`KeyError` raised on a missing `name`/`description`. -/
def format_tool_declaration (tool : ToolJson) : Except String String :=
  match tool.name? with
  | none => .error "KeyError: name"
  | some name =>
    match tool.description? with
    | none => .error "KeyError: description"
    | some desc =>
      let params := tool.parameters?.getD ⟨none, none⟩
      let properties := params.properties?.getD []
      let required := params.required?.getD []
      let param_items := properties.map fun kv =>
        let param_type := (kv.2.type?.getD "STRING").toUpper
        let param_desc := kv.2.description?.getD ""
        let base := kv.1 ++ ":\x7bdescription:<escape>" ++ param_desc ++
          "<escape>,type:<escape>" ++ param_type ++ "<escape>"
        let withEnum :=
          match kv.2.enum? with
          | some es => base ++ ",enum:[" ++
              joinSep "," (es.map fun e => "<escape>" ++ e ++ "<escape>") ++ "]"
          | none => base
        withEnum ++ "\x7d"
      let params_str := joinSep "," param_items
      let required_str := joinSep "," (required.map fun r => "<escape>" ++ r ++ "<escape>")
      .ok ("<start_function_declaration>declaration:" ++ name ++
        "\x7bdescription:<escape>" ++ desc ++ "<escape>,parameters:\x7b" ++
        params_str ++ "\x7d,required:[" ++ required_str ++
        "],type:<escape>OBJECT<escape>\x7d<end_function_declaration>")

/-- One expected tool call of a training example (`tc["name"]`,
`tc["arguments"]` are hard key accesses in the source). -/
structure ToolCallJson where
  name? : Option String
  arguments? : Option (List (String × JsonValue))

/-- A training example as loaded from JSON. -/
structure ExampleJson where
  userQuery? : Option String
  expectedToolCalls? : Option (List ToolCallJson)

/-- A composed training sample (`{"text": ...}`). -/
structure Sample where
  text : String
  deriving DecidableEq

/-- Embedding of `generate_training_sample` (lines 126-153).  Returns `ok none` when the
example has no expected tool calls (sample dropped); `error` models an
uncaught `KeyError`.  Evaluation order follows the source: the tool
declarations block is built before the empty-calls check, and the call is
rendered before `example["userQuery"]` is read. -/
def generate_training_sample (ex : ExampleJson) (tools : List ToolJson) :
    Except String (Option Sample) := do
  let decls ← tools.mapM format_tool_declaration
  let tool_declarations := joinSep "\n" decls
  let system_prompt :=
    "You are a model that can do function calling with the following functions.\n" ++
    "Must use the EXACT format: <start_function_call>call:name\x7barg:<escape>val<escape>\x7d<end_function_call>\n" ++
    "Example: <start_function_call>call:calculate\x7bexpression:<escape>5*12<escape>\x7d<end_function_call>\n" ++
    tool_declarations
  let tool_calls := ex.expectedToolCalls?.getD []
  match tool_calls with
  | [] => return none
  | tc :: _ =>
    let name ← match tc.name? with
      | some n => pure n
      | none => Except.error "KeyError: name"
    let args ← match tc.arguments? with
      | some a => pure a
      | none => Except.error "KeyError: arguments"
    let function_call := format_function_call name args
    let userQuery ← match ex.userQuery? with
      | some u => pure u
      | none => Except.error "KeyError: userQuery"
    return some ⟨"<bos><start_of_turn>developer\n" ++ system_prompt ++
      "<end_of_turn>\n<start_of_turn>user\n" ++ userQuery ++
      "<end_of_turn>\n<start_of_turn>model\n" ++ function_call ++ "<end_of_turn>"⟩

/-! ### Dataset builder (`generate_training_data.py`, `main`) -/

/-- Python `int()` applied to a rational: truncation toward zero. -/
def pyInt (q : ℚ) : ℤ :=
  if 0 ≤ q then ⌊q⌋ else ⌈q⌉

/-- Embedding of `split_idx = int(len(training_data) * args.train_split)` (line 227).
The CLI float `train_split` is modelled as an exact rational. -/
def split_idx (n : Nat) (f : ℚ) : Nat :=
  (pyInt ((n : ℚ) * f)).toNat

/-- The train/valid slicing of lines 227-229 applied to the (already
shuffled) sample list. -/
def splitData (samples : List Sample) (f : ℚ) : List Sample × List Sample :=
  (samples.take (split_idx samples.length f),
   samples.drop (split_idx samples.length f))

/-- The outcomes of the filesystem and JSON-parsing operations `main` of
`generate_training_data.py` performs, abstracted: whether each input path
exists, and what `load_tools` / `load_examples` deliver (`error` models a
raised exception, e.g. malformed JSON). -/
structure GenEnv where
  toolsExists : Bool
  examplesExists : Bool
  toolsData : Except String (List ToolJson)
  examplesData : Except String (List ExampleJson)

/-- Embedding of `main` of `generate_training_data.py` (lines 189-256).  `shuffle` is
the seeded `random.shuffle` permutation.  Returns the process outcome
(`ok code` for a normal return, `error` for an uncaught exception) paired
with the list of output files written, in write order.  Mirrors the
source order: existence checks, loads, sample generation, shuffle/split,
then the two writes; the trailing `training_data[0]` sample print raises
`IndexError` after the writes when the dataset is empty. -/
def genMain (env : GenEnv) (shuffle : List Sample → List Sample)
    (train_split : ℚ) : Except String Nat × List (String × List Sample) :=
  if !env.toolsExists then (.ok 1, [])
  else if !env.examplesExists then (.ok 1, [])
  else
    match env.toolsData with
    | .error e => (.error e, [])
    | .ok tools =>
      match env.examplesData with
      | .error e => (.error e, [])
      | .ok examples =>
        match examples.mapM (fun ex => generate_training_sample ex tools) with
        | .error e => (.error e, [])
        | .ok maybeSamples =>
          let training_data := shuffle (maybeSamples.filterMap id)
          let si := split_idx training_data.length train_split
          let train_data := training_data.take si
          let valid_data := training_data.drop si
          let writes := [("train.jsonl", train_data), ("valid.jsonl", valid_data)]
          match training_data with
          | [] => (.error "IndexError: list index out of range", writes)
          | _ => (.ok 0, writes)

/-! ### ONNX export and quantization (`export_and_test_onnx.py`) -/

/-- The filesystem facts the model-file probes consult, relative to the
input directory: whether `model.onnx`, the `onnx/` subdirectory,
`onnx/model.onnx` and `decoder_model.onnx` exist. -/
structure OnnxFs where
  rootModel : Bool
  onnxDir : Bool
  onnxSubModel : Bool
  legacyModel : Bool

/-- Embedding of `Path.exists()` over the three candidate model paths. -/
def fsExists (fs : OnnxFs) (p : String) : Bool :=
  if p = "model.onnx" then fs.rootModel
  else if p = "onnx/model.onnx" then fs.onnxSubModel
  else if p = "decoder_model.onnx" then fs.legacyModel
  else false

/-- The model-file probe of `quantize_q4_webgpu` (lines 69-81): root
`model.onnx`; if absent and the `onnx/` subdirectory exists, switch to
`onnx/model.onnx`; if the current candidate is absent, switch to
`decoder_model.onnx`; fail if the final candidate is absent. -/
def findModel_quantize_q4_webgpu (fs : OnnxFs) : Option String :=
  let m1 := "model.onnx"
  let m2 := if !fsExists fs m1 && fs.onnxDir then "onnx/model.onnx" else m1
  let m3 := if !fsExists fs m2 then "decoder_model.onnx" else m2
  if fsExists fs m3 then some m3 else none

/-- The model-file probe of `quantize_onnx` (lines 158-164): root
`model.onnx`, then `decoder_model.onnx`; no `onnx/` subdirectory probe. -/
def findModel_quantize_onnx (fs : OnnxFs) : Option String :=
  let m1 := "model.onnx"
  let m2 := if !fsExists fs m1 then "decoder_model.onnx" else m1
  if fsExists fs m2 then some m2 else none

/-- The model-file probe of `test_onnx_inference` (lines 367-379): root
`model.onnx`, then `decoder_model.onnx`, and only then `onnx/model.onnx`
when the `onnx/` subdirectory exists. -/
def findModel_test_onnx_inference (fs : OnnxFs) : Option String :=
  let m1 := "model.onnx"
  let m2 := if !fsExists fs m1 then "decoder_model.onnx" else m1
  let m3 := if !fsExists fs m2 && fs.onnxDir then "onnx/model.onnx" else m2
  if fsExists fs m3 then some m3 else none

/-- Modelled from the spec: the claimed uniform probe order for the
canonical ONNX model file — `model.onnx` at the input-directory root,
then `onnx/model.onnx` in the subdirectory, then the legacy
`decoder_model.onnx`; the operation fails when none exists. -/
def specResolveModel (fs : OnnxFs) : Option String :=
  if fs.rootModel then some "model.onnx"
  else if fs.onnxDir && fs.onnxSubModel then some "onnx/model.onnx"
  else if fs.legacyModel then some "decoder_model.onnx"
  else none

/-- The external quantization calls `quantize_onnx` can issue. -/
inductive QuantCall where
  | int8
  | fp16
  | q4
  | q4webgpu
  deriving DecidableEq

/-- Outcomes of the external operations inside `quantize_onnx`: the
filesystem, whether each `quantize_dynamic`/`convert_float_to_float16`
call raises, and the verdict of the delegated `quantize_q4_webgpu`. -/
structure QuantEnv where
  fs : OnnxFs
  int8Raises : Bool
  fp16Raises : Bool
  q4Raises : Bool
  q4webgpuResult : Bool

/-- Embedding of `quantize_onnx` (lines 142-224): dispatch over the quantization mode.
Returns the success verdict, the external quantization calls attempted in
order, and the warnings printed.  `q4-webgpu` is delegated before the file
probe; a raising call is caught by the outer handler and yields `false`,
except the `q4` attempt, whose failure falls back to an `int8` call with a
warning. -/
def quantize_onnx (quant_type : String) (env : QuantEnv) :
    Bool × List QuantCall × List String :=
  if quant_type = "q4-webgpu" then (env.q4webgpuResult, [.q4webgpu], [])
  else
    match findModel_quantize_onnx env.fs with
    | none => (false, [], [])
    | some _ =>
      if quant_type = "int8" then
        if env.int8Raises then (false, [.int8], []) else (true, [.int8], [])
      else if quant_type = "fp16" then
        if env.fp16Raises then (false, [.fp16], []) else (true, [.fp16], [])
      else if quant_type = "q4" then
        let warns := ["Q4 quantization is experimental and may not work in all browsers"]
        if env.q4Raises then
          if env.int8Raises then
            (false, [.q4, .int8], warns ++ ["Q4 not available, falling back to INT8"])
          else
            (true, [.q4, .int8], warns ++ ["Q4 not available, falling back to INT8"])
        else (true, [.q4], warns)
      else (false, [], [])

/-- Outcomes of the external operations inside `test_with_transformers_js`:
whether the Node test script file exists, whether the `node` executable is
installed (`subprocess.run` raises `FileNotFoundError` otherwise), whether
the run raises some other exception, and the test's exit code. -/
structure NodeEnv where
  scriptExists : Bool
  nodeInstalled : Bool
  runRaises : Bool
  returncode : Nat

/-- Embedding of `test_with_transformers_js` (lines 227-265).  Returns the verdict and
whether the Node test actually ran to completion. -/
def test_with_transformers_js (env : NodeEnv) : Bool × Bool :=
  if !env.scriptExists then (true, false)
  else if !env.nodeInstalled then (true, false)
  else if env.runRaises then (true, false)
  else if env.returncode = 0 then (true, true)
  else (false, true)

/-- Halt lemma for the loop: if the stage at offset `k` of the remaining
list is not skipped and its step function fails, the loop exits with code 1
and every invoked stage index is at most `i + k`. -/
theorem runLoop_halt (outcome : Nat → Bool) :
    ∀ (skips : List Bool) (i k : Nat),
      skips[k]? = some false → outcome (i + k) = false →
      (runLoop outcome i skips).1 = 1 ∧
        ∀ j ∈ (runLoop outcome i skips).2, j ≤ i + k := by
  intro skips
  induction skips with
  | nil => intro i k h _; simp at h
  | cons s rest ih =>
    intro i k hk hout
    cases k with
    | zero =>
      simp at hk
      subst hk
      simp at hout
      simp [runLoop, hout]
    | succ k =>
      simp at hk
      have hout' : outcome (i + 1 + k) = false := by
        have : i + 1 + k = i + (k + 1) := by omega
        rw [this]; exact hout
      have h := ih (i + 1) k hk hout'
      by_cases hs : s = true
      · subst hs
        simp only [runLoop, if_pos rfl]
        refine ⟨h.1, fun j hj => ?_⟩
        have := h.2 j hj
        omega
      · have hs' : s = false := by simpa using hs
        subst hs'
        by_cases ho : outcome i = true
        · simp only [runLoop, Bool.false_eq_true, if_false, ho, if_pos rfl]
          refine ⟨h.1, fun j hj => ?_⟩
          simp at hj
          rcases hj with hj | hj
          · omega
          · have := h.2 j hj
            omega
        · have ho' : outcome i = false := by simpa using ho
          simp [runLoop, ho']

/-- Success lemma for the loop: if every non-skipped stage succeeds, the
exit code is 0. -/
theorem runLoop_success (outcome : Nat → Bool) :
    ∀ (skips : List Bool) (i : Nat),
      (∀ k, skips[k]? = some false → outcome (i + k) = true) →
      (runLoop outcome i skips).1 = 0 := by
  intro skips
  induction skips with
  | nil => intro i _; simp [runLoop]
  | cons s rest ih =>
    intro i h
    by_cases hs : s = true
    · subst hs
      simp only [runLoop, if_pos rfl]
      exact ih (i + 1) fun k hk => by
        have := h (k + 1) (by simpa using hk)
        have e : i + (k + 1) = i + 1 + k := by omega
        rw [e] at this; exact this
    · have hs' : s = false := by simpa using hs
      subst hs'
      have h0 : outcome i = true := by
        have := h 0 (by simp)
        simpa using this
      simp only [runLoop, Bool.false_eq_true, if_false, h0, if_pos rfl]
      exact ih (i + 1) fun k hk => by
        have := h (k + 1) (by simpa using hk)
        have e : i + (k + 1) = i + 1 + k := by omega
        rw [e] at this; exact this

/-- Claim C2: for every run configuration and every position `i` in the
orchestrator's ordered stage list, if the non-skipped stage at position
`i` fails (its step function reports failure), then no stage at any
position `j > i` is ever invoked and the run reports overall failure
(exit code 1). -/
theorem pipeline_halt_law (a : PipelineArgs) (outcome : Nat → Bool) (i : Nat)
    (hskip : (skipFlags a)[i]? = some false) (hout : outcome i = false) :
    (runPipeline a outcome).1 = 1 ∧
      ∀ j, i < j → j ∉ (runPipeline a outcome).2 := by
  have h := runLoop_halt outcome (skipFlags a) 0 i hskip (by simpa using hout)
  refine ⟨h.1, fun j hj hmem => ?_⟩
  have := h.2 j hmem
  omega

/-- Witness for C2: with no skip flags and every step failing, stage 0
fails, the exit code is 1 and stage 1 is never invoked. -/
theorem pipeline_halt_law_witness :
    (skipFlags ⟨false, false, false, false, false⟩)[0]? = some false ∧
      (fun _ : Nat => false) 0 = false ∧
      (runPipeline ⟨false, false, false, false, false⟩ (fun _ => false)).1 = 1 ∧
      1 ∉ (runPipeline ⟨false, false, false, false, false⟩ (fun _ => false)).2 :=
  ⟨by decide, rfl,
   (pipeline_halt_law ⟨false, false, false, false, false⟩ (fun _ => false) 0
     (by decide) rfl).1,
   (pipeline_halt_law ⟨false, false, false, false, false⟩ (fun _ => false) 0
     (by decide) rfl).2 1 (by omega)⟩

/-- Claim C1 counterexample: run with no skip flags in which every step
succeeds except the validate-adapter gate ("Test Adapters", stage index
2).  The claim predicts the run still reports overall success (exit code
0) with every later stage invoked; the code instead exits with code 1 and
never invokes stage 3 ("Fuse Model"). -/
theorem gate_failure_aborts_cex :
    (runPipeline ⟨false, false, false, false, false⟩ (fun i => decide (i ≠ 2))).1 = 1 ∧
      3 ∉ (runPipeline ⟨false, false, false, false, false⟩ (fun i => decide (i ≠ 2))).2 := by
  decide

/-- Claim C1 (amended): if the validate-adapter (stage index 2) or
validate-fused (stage index 4) gate stage is not skipped and its format
smoke check fails, the failure aborts the pipeline exactly like any other
stage failure: no later stage is invoked and the run reports failure
(exit code 1). -/
theorem gate_failure_halts (a : PipelineArgs) (outcome : Nat → Bool) (g : Nat)
    (_hg : g = 2 ∨ g = 4) (hskip : (skipFlags a)[g]? = some false)
    (hout : outcome g = false) :
    (runPipeline a outcome).1 = 1 ∧
      ∀ j, g < j → j ∉ (runPipeline a outcome).2 := by
  have h := runLoop_halt outcome (skipFlags a) 0 g hskip (by simpa using hout)
  refine ⟨h.1, fun j hj hmem => ?_⟩
  have := h.2 j hmem
  omega

/-- Witness for the amended C1: the validate-adapter gate (index 2) is not
skipped, its check fails, the run exits 1 and stage 3 is never invoked. -/
theorem gate_failure_halts_witness :
    ((2 : Nat) = 2 ∨ (2 : Nat) = 4) ∧
      (skipFlags ⟨false, false, false, false, false⟩)[2]? = some false ∧
      (fun i : Nat => decide (i ≠ 2)) 2 = false ∧
      (runPipeline ⟨false, false, false, false, false⟩ (fun i => decide (i ≠ 2))).1 = 1 ∧
      3 ∉ (runPipeline ⟨false, false, false, false, false⟩ (fun i => decide (i ≠ 2))).2 :=
  ⟨Or.inl rfl, by decide, by decide,
   (gate_failure_halts ⟨false, false, false, false, false⟩ (fun i => decide (i ≠ 2)) 2
     (Or.inl rfl) (by decide) (by decide)).1,
   (gate_failure_halts ⟨false, false, false, false, false⟩ (fun i => decide (i ≠ 2)) 2
     (Or.inl rfl) (by decide) (by decide)).2 3 (by omega)⟩

/-- Claim C9: `--skip-training` alone marks exactly the four stages
Train Adapters, Test Adapters, Fuse Model and Test Fused as skipped, even
without `--skip-tests`; `--skip-tests` alone marks exactly the two gate
stages Test Adapters and Test Fused. -/
theorem skip_flag_semantics :
    ((pipelineSteps ⟨false, true, false, false, false⟩).filter Prod.snd).map Prod.fst =
      ["Train Adapters", "Test Adapters", "Fuse Model", "Test Fused"] ∧
    ((pipelineSteps ⟨false, false, true, false, false⟩).filter Prod.snd).map Prod.fst =
      ["Test Adapters", "Test Fused"] := by
  decide

/-- Claim C10: `test_with_transformers_js` succeeds without running any
check when the Node test script is absent or `node` is not installed, and
reports failure exactly when the test actually ran and exited non-zero. -/
theorem node_test_advisory (env : NodeEnv) :
    ((env.scriptExists = false ∨ env.nodeInstalled = false) →
      test_with_transformers_js env = (true, false)) ∧
    ((test_with_transformers_js env).1 = false ↔
      (test_with_transformers_js env).2 = true ∧ env.returncode ≠ 0) := by
  obtain ⟨se, ni, rr, rc⟩ := env
  constructor
  · rintro (h | h) <;> (subst h; simp [test_with_transformers_js])
  · cases se <;> cases ni <;> cases rr
    all_goals by_cases h : rc = 0
    all_goals simp [test_with_transformers_js, h]

/-- Witness for C10: with the script missing the verdict is success and
the test did not run. -/
theorem node_test_advisory_witness :
    ((false : Bool) = false ∨ (true : Bool) = false) ∧
      test_with_transformers_js ⟨false, true, false, 7⟩ = (true, false) :=
  ⟨Or.inl rfl, (node_test_advisory ⟨false, true, false, 7⟩).1 (Or.inl rfl)⟩

/-- Claim C7: in mode `q4`, when the 4-bit quantization call raises and
the `int8` fallback call does not, `quantize_onnx` reports success, the
`int8` call was issued, and the fallback warning was logged. -/
theorem quantize_q4_fallback (env : QuantEnv)
    (hfind : (findModel_quantize_onnx env.fs).isSome)
    (hq4 : env.q4Raises = true) (hint8 : env.int8Raises = false) :
    (quantize_onnx "q4" env).1 = true ∧
      QuantCall.int8 ∈ (quantize_onnx "q4" env).2.1 ∧
      "Q4 not available, falling back to INT8" ∈ (quantize_onnx "q4" env).2.2 := by
  rcases h : findModel_quantize_onnx env.fs with _ | p
  · rw [h] at hfind; simp at hfind
  · simp [quantize_onnx, h, hq4, hint8]

/-- Witness for C7: root `model.onnx` present, `q4` unsupported, `int8`
works; the stage succeeds via the fallback with the warning logged. -/
theorem quantize_q4_fallback_witness :
    (findModel_quantize_onnx ⟨true, false, false, false⟩).isSome = true ∧
      (true : Bool) = true ∧ (false : Bool) = false ∧
      (quantize_onnx "q4" ⟨⟨true, false, false, false⟩, false, false, true, true⟩).1 = true ∧
      QuantCall.int8 ∈
        (quantize_onnx "q4" ⟨⟨true, false, false, false⟩, false, false, true, true⟩).2.1 ∧
      "Q4 not available, falling back to INT8" ∈
        (quantize_onnx "q4" ⟨⟨true, false, false, false⟩, false, false, true, true⟩).2.2 :=
  ⟨by decide, rfl, rfl,
   (quantize_q4_fallback ⟨⟨true, false, false, false⟩, false, false, true, true⟩
     (by decide) rfl rfl).1,
   (quantize_q4_fallback ⟨⟨true, false, false, false⟩, false, false, true, true⟩
     (by decide) rfl rfl).2.1,
   (quantize_q4_fallback ⟨⟨true, false, false, false⟩, false, false, true, true⟩
     (by decide) rfl rfl).2.2⟩

/-- Claim C3 counterexample: with only `onnx/model.onnx` present (no root
`model.onnx`, no `decoder_model.onnx`), the claimed uniform probe order
resolves `onnx/model.onnx`, but `quantize_onnx`'s probe fails: it never
looks in the `onnx/` subdirectory. -/
theorem model_probe_order_cex :
    findModel_quantize_onnx ⟨false, true, true, false⟩ = none ∧
      specResolveModel ⟨false, true, true, false⟩ = some "onnx/model.onnx" := by
  constructor <;> rfl

/-- Claim C3 (amended): the probe order is per-operation, not uniform.
`quantize_q4_webgpu` probes root `model.onnx`, then `onnx/model.onnx`
(when the `onnx/` subdirectory exists), then `decoder_model.onnx` — the
order the claim states; `quantize_onnx` probes only root `model.onnx`
then `decoder_model.onnx`; `test_onnx_inference` probes root
`model.onnx`, then `decoder_model.onnx`, then `onnx/model.onnx`.  Each
fails exactly when its own probed candidates are all absent. -/
theorem model_probe_order_per_operation :
    ∀ a b c d : Bool,
      findModel_quantize_q4_webgpu ⟨a, b, c, d⟩ = specResolveModel ⟨a, b, c, d⟩ ∧
      findModel_quantize_onnx ⟨a, b, c, d⟩ =
        (if a then some "model.onnx"
         else if d then some "decoder_model.onnx" else none) ∧
      findModel_test_onnx_inference ⟨a, b, c, d⟩ =
        (if a then some "model.onnx"
         else if d then some "decoder_model.onnx"
         else if b && c then some "onnx/model.onnx" else none) := by
  decide

/-- A list occurs between two others as a contiguous segment. -/
theorem middle_segment (l₁ l₂ l₃ : List Char) : l₂ <:+: l₁ ++ l₂ ++ l₃ :=
  ⟨l₁, l₃, rfl⟩

/-- Each element of a separated join occurs in it as a contiguous segment. -/
theorem joinSep_mem_middle (sep : String) :
    ∀ (l : List String) (x : String), x ∈ l →
      x.data <:+: (joinSep sep l).data := by
  intro l
  induction l with
  | nil => intro x hx; simp at hx
  | cons a as ih =>
    intro x hx
    rcases as with _ | ⟨b, bs⟩
    · simp at hx
      subst hx
      simp [joinSep]
    · rcases List.mem_cons.mp hx with rfl | hx
      · have e : joinSep sep (x :: b :: bs) = x ++ sep ++ joinSep sep (b :: bs) := rfl
        rw [e, String.data_append, String.data_append]
        exact ⟨[], sep.data ++ (joinSep sep (b :: bs)).data, by simp⟩
      · obtain ⟨s, t, hst⟩ := ih x hx
        have e : joinSep sep (a :: b :: bs) = a ++ sep ++ joinSep sep (b :: bs) := rfl
        rw [e, String.data_append, String.data_append]
        exact ⟨a.data ++ sep.data ++ s, t, by rw [← hst]; simp⟩

/-- Claim C8: whenever the arguments of a call include an argument named
`data` whose value is the mapping with key `"key"` and value `"value"`,
the output of `format_function_call` contains the literal text
`data:<escape>{"key": "value"}<escape>` — the JSON rendering with a space
after the colon, wrapped in the escape delimiters exactly once with no
nested escaping. -/
theorem format_function_call_data_roundtrip (name : String)
    (args : List (String × JsonValue))
    (h : ("data", JsonValue.obj [("key", JsonValue.str "value")]) ∈ args) :
    ("data:<escape>\x7b\"key\": \"value\"\x7d<escape>").data <:+:
      (format_function_call name args).data := by
  have hmap : "data:<escape>\x7b\"key\": \"value\"\x7d<escape>" ∈
      args.map (fun kv => kv.1 ++ ":<escape>" ++ escape_value kv.2 ++ "<escape>") :=
    List.mem_map.mpr ⟨_, h, rfl⟩
  have hjoin := joinSep_mem_middle "," _ _ hmap
  have hform : format_function_call name args =
      ("<start_function_call>call:" ++ name ++ "\x7b") ++
        joinSep "," (args.map fun kv =>
          kv.1 ++ ":<escape>" ++ escape_value kv.2 ++ "<escape>") ++
        "\x7d<end_function_call>" := by
    simp [format_function_call, String.append_assoc]
  rw [hform, String.data_append, String.data_append]
  exact hjoin.trans (middle_segment _ _ _)

/-- Witness for C8: a one-argument call carrying the `data` mapping. -/
theorem format_function_call_data_roundtrip_witness :
    ("data", JsonValue.obj [("key", JsonValue.str "value")]) ∈
      ([("data", JsonValue.obj [("key", JsonValue.str "value")])] :
        List (String × JsonValue)) ∧
    ("data:<escape>\x7b\"key\": \"value\"\x7d<escape>").data <:+:
      (format_function_call "store"
        [("data", JsonValue.obj [("key", JsonValue.str "value")])]).data :=
  ⟨List.mem_singleton.mpr rfl,
   format_function_call_data_roundtrip "store" _ (List.mem_singleton.mpr rfl)⟩

/-- A tool with both `name` and `description` present encodes successfully. -/
theorem format_tool_declaration_isOk (t : ToolJson)
    (h1 : t.name?.isSome) (h2 : t.description?.isSome) :
    ∃ s, format_tool_declaration t = Except.ok s := by
  obtain ⟨n, d, p⟩ := t
  cases n with
  | none => simp at h1
  | some n =>
    cases d with
    | none => simp at h2
    | some d => exact ⟨_, rfl⟩

/-- A list of well-formed tools encodes successfully. -/
theorem mapM_decls_ok (tools : List ToolJson)
    (h : ∀ t ∈ tools, t.name?.isSome ∧ t.description?.isSome) :
    ∃ ds, tools.mapM format_tool_declaration = Except.ok ds := by
  induction tools with
  | nil => exact ⟨[], rfl⟩
  | cons t ts ih =>
    obtain ⟨s, hs⟩ := format_tool_declaration_isOk t (h t (by simp)).1 (h t (by simp)).2
    obtain ⟨ds, hds⟩ := ih fun t' ht' => h t' (by simp [ht'])
    refine ⟨s :: ds, ?_⟩
    rw [List.mapM_cons, hs, hds]
    rfl

/-- Claim C5: for every training example and every well-formed tool list
(each tool carries `name` and `description`, the data-model invariant),
`generate_training_sample` returns `ok none` — the sample is dropped with
no exception raised — exactly when the example's `expectedToolCalls` is
empty. -/
theorem generate_training_sample_drop (ex : ExampleJson) (tools : List ToolJson)
    (htools : ∀ t ∈ tools, t.name?.isSome ∧ t.description?.isSome) :
    generate_training_sample ex tools = Except.ok none ↔
      ex.expectedToolCalls?.getD [] = [] := by
  obtain ⟨ds, hds⟩ := mapM_decls_ok tools htools
  obtain ⟨uq, etc⟩ := ex
  constructor
  · intro h
    rcases hcalls : etc.getD [] with _ | ⟨tc, rest⟩
    · rfl
    · exfalso
      obtain ⟨tcn, tca⟩ := tc
      simp only [generate_training_sample, hds, hcalls] at h
      cases tcn <;> cases tca <;> cases uq <;>
        simp_all [Bind.bind, Except.bind, Pure.pure, Except.pure]
  · intro h
    simp only at h
    unfold generate_training_sample
    have hloop : List.mapM.loop format_tool_declaration tools [] =
        Except.ok ds := hds
    simp [hloop, h, Bind.bind, Except.bind, Pure.pure, Except.pure]

/-- Witness for C5: one well-formed tool, an example with no expected
calls; the composer returns `ok none`. -/
theorem generate_training_sample_drop_witness :
    (∀ t ∈ ([⟨some "calculate", some "Math", none⟩] : List ToolJson),
      t.name?.isSome ∧ t.description?.isSome) ∧
    generate_training_sample ⟨some "What is 5 * 12?", some []⟩
      [⟨some "calculate", some "Math", none⟩] = Except.ok none :=
  ⟨by decide,
   (generate_training_sample_drop ⟨some "What is 5 * 12?", some []⟩
     [⟨some "calculate", some "Math", none⟩] (by decide)).mpr rfl⟩

/-- Claim C4: for a (shuffled) sample sequence of length `N ≥ 1` and train
fraction `0 < f < 1`, the split index equals `⌊N*f⌋` (Python `int()`
truncation coincides with the floor on the non-negative product), the
train partition is exactly the first `⌊N*f⌋` samples, the validation
partition is the remainder, and the partition lengths sum to `N`. -/
theorem split_law (samples : List Sample) (f : ℚ)
    (h1 : 1 ≤ samples.length) (h2 : 0 < f) (h3 : f < 1) :
    (split_idx samples.length f : ℤ) = ⌊(samples.length : ℚ) * f⌋ ∧
    (splitData samples f).1 = samples.take (split_idx samples.length f) ∧
    (splitData samples f).2 = samples.drop (split_idx samples.length f) ∧
    (splitData samples f).1.length = split_idx samples.length f ∧
    (splitData samples f).1.length + (splitData samples f).2.length =
      samples.length := by
  have hq : (0 : ℚ) ≤ (samples.length : ℚ) * f := by positivity
  have hpy : pyInt ((samples.length : ℚ) * f) = ⌊(samples.length : ℚ) * f⌋ :=
    if_pos hq
  have hfl0 : 0 ≤ ⌊(samples.length : ℚ) * f⌋ := Int.floor_nonneg.mpr hq
  have hcast : (split_idx samples.length f : ℤ) = ⌊(samples.length : ℚ) * f⌋ := by
    rw [split_idx, hpy, Int.toNat_of_nonneg hfl0]
  have hle : (samples.length : ℚ) * f ≤ (samples.length : ℚ) := by
    calc (samples.length : ℚ) * f ≤ (samples.length : ℚ) * 1 :=
          mul_le_mul_of_nonneg_left h3.le (by positivity)
      _ = (samples.length : ℚ) := mul_one _
  have hkN : split_idx samples.length f ≤ samples.length := by
    have hf : ⌊(samples.length : ℚ) * f⌋ ≤ ⌊((samples.length : Nat) : ℚ)⌋ :=
      Int.floor_le_floor hle
    rw [Int.floor_natCast] at hf
    omega
  refine ⟨hcast, rfl, rfl, ?_, ?_⟩
  · simp [splitData, List.length_take]
    omega
  · simp [splitData, List.length_take, List.length_drop]
    omega

/-- Witness for C4: three samples with fraction 1/2 — the split index is
`⌊3/2⌋` and the partition lengths sum to 3. -/
theorem split_law_witness :
    (1 ≤ ([⟨"a"⟩, ⟨"b"⟩, ⟨"c"⟩] : List Sample).length) ∧
    (0 < (1 : ℚ) / 2) ∧ ((1 : ℚ) / 2 < 1) ∧
    (split_idx ([⟨"a"⟩, ⟨"b"⟩, ⟨"c"⟩] : List Sample).length ((1 : ℚ) / 2) : ℤ) =
      ⌊((([⟨"a"⟩, ⟨"b"⟩, ⟨"c"⟩] : List Sample).length : ℚ) * ((1 : ℚ) / 2))⌋ ∧
    (splitData [⟨"a"⟩, ⟨"b"⟩, ⟨"c"⟩] ((1 : ℚ) / 2)).1.length +
        (splitData [⟨"a"⟩, ⟨"b"⟩, ⟨"c"⟩] ((1 : ℚ) / 2)).2.length =
      ([⟨"a"⟩, ⟨"b"⟩, ⟨"c"⟩] : List Sample).length :=
  ⟨by decide, by norm_num, by norm_num,
   (split_law [⟨"a"⟩, ⟨"b"⟩, ⟨"c"⟩] ((1 : ℚ) / 2)
     (by decide) (by norm_num) (by norm_num)).1,
   (split_law [⟨"a"⟩, ⟨"b"⟩, ⟨"c"⟩] ((1 : ℚ) / 2)
     (by decide) (by norm_num) (by norm_num)).2.2.2.2⟩

/-- Claim C6: every fatal input error of the data-generation entry point —
missing tools path, missing examples path, or a load/parse failure of
either source file — makes the run exit without having written
`train.jsonl` or `valid.jsonl`: no output file is written (not even
partially) and the process outcome is not a successful exit 0. -/
theorem genMain_fatal_no_output (env : GenEnv)
    (shuffle : List Sample → List Sample) (f : ℚ)
    (h : env.toolsExists = false ∨ env.examplesExists = false ∨
      (∃ e, env.toolsData = Except.error e) ∨
      (∃ e, env.examplesData = Except.error e)) :
    (genMain env shuffle f).2 = [] ∧ (genMain env shuffle f).1 ≠ Except.ok 0 := by
  obtain ⟨te, ee, td, ed⟩ := env
  rcases h with h | h | ⟨e, h⟩ | ⟨e, h⟩
  · subst h; simp [genMain]
  · subst h; cases te <;> simp [genMain]
  · subst h; cases te <;> cases ee <;> simp [genMain]
  · subst h
    cases te <;> cases ee <;> rcases td with e' | tools <;> simp [genMain]

/-- Witness for C6: the tools path is missing; nothing is written and the
exit is not 0. -/
theorem genMain_fatal_no_output_witness :
    ((⟨false, true, Except.ok [], Except.ok []⟩ : GenEnv).toolsExists = false ∨
      (⟨false, true, Except.ok [], Except.ok []⟩ : GenEnv).examplesExists = false ∨
      (∃ e, (⟨false, true, Except.ok [], Except.ok []⟩ : GenEnv).toolsData =
        Except.error e) ∨
      (∃ e, (⟨false, true, Except.ok [], Except.ok []⟩ : GenEnv).examplesData =
        Except.error e)) ∧
    (genMain ⟨false, true, Except.ok [], Except.ok []⟩ id ((1 : ℚ) / 2)).2 = [] ∧
    (genMain ⟨false, true, Except.ok [], Except.ok []⟩ id ((1 : ℚ) / 2)).1 ≠
      Except.ok 0 :=
  ⟨Or.inl rfl,
   (genMain_fatal_no_output ⟨false, true, Except.ok [], Except.ok []⟩ id
     ((1 : ℚ) / 2) (Or.inl rfl)).1,
   (genMain_fatal_no_output ⟨false, true, Except.ok [], Except.ok []⟩ id
     ((1 : ℚ) / 2) (Or.inl rfl)).2⟩

end EdgeLLM
